import Mathlib

/-!
# Verification of the txn-service funds-transfer core

Shallow embedding of the Go sources of `txn-service`:

* `internal/repository/transaction_repository.go` — `transactionRepository.Transfer`,
  `transactionRepository.Create`, `getByAccountIDWithLock`;
* `internal/service` (`src/unnamed/part_001`) — `transactionService.ProcessTransaction`,
  `validateTransactionRequest`;
* `internal/service` account service (second half of the repository file) —
  `accountService.CreateAccount`, `validateBalance`;
* `internal/repository/account_repository.go` — `accountRepository.Create`;
* `internal/handlers/account_handler.go` — `isDuplicateAccountError`,
  `AccountHandler.CreateAccount`.

The Go code parses the decimal strings it receives with `strconv.ParseFloat(_, 64)`
and performs all balance arithmetic on IEEE-754 binary64 values.  We model a Go
`float64` as `GoFloat`: either NaN, a signed infinity, or a finite value carried as
the exact rational it denotes.  `round64` is round-to-nearest, ties-to-even at 53
significant bits with an unbounded exponent below the overflow threshold `2^1024`
(the subnormal range, hexadecimal float literals and digit-separating underscores
of Go's syntax are outside the model; no claim exercises them).

The PostgreSQL store (`DECIMAL(20,8)` columns, per the spec an exact-decimal
collaborator) is modelled as holding the exact numeric value each write sends:
a string INSERT stores the string's exact decimal value, an UPDATE carrying a Go
float64 stores that float's exact rational value.  Reading a stored balance back
through `strconv.ParseFloat` is modelled by re-rounding the stored rational.
-/

attribute [local semireducible] Rat.add Rat.mul Rat.inv Rat.sub

set_option maxRecDepth 16000

instance {α β : Type} [DecidableEq α] [DecidableEq β] : DecidableEq (Except α β) :=
  fun a b =>
    match a, b with
    | .ok x, .ok y =>
      if h : x = y then .isTrue (by rw [h]) else .isFalse (by intro he; cases he; exact h rfl)
    | .error x, .error y =>
      if h : x = y then .isTrue (by rw [h]) else .isFalse (by intro he; cases he; exact h rfl)
    | .ok _, .error _ => .isFalse (by intro he; cases he)
    | .error _, .ok _ => .isFalse (by intro he; cases he)

/-- A Go `float64` value: NaN, ±Inf, or a finite value given by the exact
rational number it denotes. -/
inductive GoFloat : Type where
  | nan : GoFloat
  | inf (neg : Bool) : GoFloat
  | num (val : ℚ) : GoFloat
deriving DecidableEq, Repr

namespace GoFloat

/-- Floor of the base-2 logarithm of a positive natural, by fuel-bounded
halving (4096 steps cover every magnitude any claim touches). -/
def log2F : ℕ → ℕ → ℕ
  | 0, _ => 0
  | fuel + 1, n => if n ≤ 1 then 0 else 1 + log2F fuel (n / 2)

/-- The unique `e` with `2^e ≤ n/d < 2^(e+1)` for positive `n`, `d`, from the
floor logarithms of numerator and denominator. -/
def ilog2 (n d : ℕ) : ℤ :=
  let a := log2F 4096 n
  let b := log2F 4096 d
  if n * 2 ^ b < d * 2 ^ a then (a : ℤ) - (b : ℤ) - 1 else (a : ℤ) - (b : ℤ)

/-- Round the positive rational `n / d` to 53 significant bits, round to
nearest, ties to even: the integer mantissa (in `[2^52, 2^53]`) and the binary
exponent `e` of the leading bit; the rounded value is `mant * 2^(e-52)`. -/
def mantExp (n d : ℕ) : ℕ × ℤ :=
  let e := ilog2 n d
  let bigN := n * 2 ^ (52 - e).toNat
  let bigD := d * 2 ^ (e - 52).toNat
  let qu := bigN / bigD
  let r := bigN % bigD
  let mant :=
    if 2 * r < bigD then qu
    else if bigD < 2 * r then qu + 1
    else if qu % 2 = 0 then qu else qu + 1
  (mant, e)

/-- The rational `mant * 2^(e-52)`. -/
def mantVal (mant : ℕ) (e : ℤ) : ℚ :=
  Rat.divInt ((mant * 2 ^ (e - 52).toNat : ℕ) : ℤ) ((2 ^ (52 - e).toNat : ℕ) : ℤ)

/-- Round-to-nearest (ties even) at binary64 precision: the model of the value a
correctly rounded IEEE-754 binary64 operation produces from an exact rational
result.  A rounded magnitude that reaches `2^1024` overflows to infinity. -/
def round64 (q : ℚ) : GoFloat :=
  if q = 0 then .num 0
  else
    let neg : Bool := q.num < 0
    let p := mantExp q.num.natAbs q.den
    if 1024 ≤ p.2 ∨ (p.2 = 1023 ∧ p.1 = 2 ^ 53) then .inf neg
    else
      let v := mantVal p.1 p.2
      .num (if neg then -v else v)

/-- Negation of a Go float. -/
def fneg : GoFloat → GoFloat
  | .nan => .nan
  | .inf s => .inf (!s)
  | .num q => .num (-q)

/-- Go `x + y` on float64: NaN propagates, opposite infinities give NaN, a finite
sum is rounded to binary64. -/
def fadd : GoFloat → GoFloat → GoFloat
  | .nan, _ => .nan
  | _, .nan => .nan
  | .inf s, .inf t => if s = t then .inf s else .nan
  | .inf s, .num _ => .inf s
  | .num _, .inf t => .inf t
  | .num x, .num y => round64 (x + y)

/-- Go `x - y` on float64. -/
def fsub (x y : GoFloat) : GoFloat := fadd x (fneg y)

/-- Go `x < y` on float64: any comparison with NaN is false. -/
def flt : GoFloat → GoFloat → Bool
  | .nan, _ => false
  | _, .nan => false
  | .inf s, .inf t => s && !t
  | .inf s, .num _ => s
  | .num _, .inf t => !t
  | .num x, .num y => decide (x < y)

/-- Go `x <= y` on float64: any comparison with NaN is false. -/
def fle : GoFloat → GoFloat → Bool
  | .nan, _ => false
  | _, .nan => false
  | .inf s, .inf t => s || !t
  | .inf s, .num _ => s
  | .num _, .inf t => !t
  | .num x, .num y => decide (x ≤ y)

end GoFloat

/-! ## Decimal-string parsing (`strconv.ParseFloat`) -/

/-- Numeric value of a list of ASCII digits (most significant first). -/
def digitsVal (l : List Char) : ℕ :=
  l.foldl (fun acc c => 10 * acc + (c.toNat - '0'.toNat)) 0

/-- All characters are ASCII digits. -/
def allDigits (l : List Char) : Bool := l.all Char.isDigit

/-- Split a list at the first occurrence of a separator satisfying `p`,
returning the part before and (if found) the part after. -/
def splitAtSep (p : Char → Bool) : List Char → List Char × Option (List Char)
  | [] => ([], none)
  | c :: cs =>
    if p c then ([], some cs)
    else
      let r := splitAtSep p cs
      (c :: r.1, r.2)

/-- Exact rational value of a decimal literal in `strconv.ParseFloat`'s decimal
syntax: optional sign, digits with an optional fraction part (at least one digit
overall), optional decimal exponent.  Returns `none` on any malformed input.
This is the exact value BEFORE binary64 rounding. -/
def parseDecQ (s : String) : Option ℚ :=
  let cs := s.data
  let signAndRest : Bool × List Char :=
    match cs with
    | '+' :: rest => (false, rest)
    | '-' :: rest => (true, rest)
    | rest => (false, rest)
  let neg := signAndRest.1
  let body := signAndRest.2
  let mantExp := splitAtSep (fun c => c = 'e' || c = 'E') body
  let mant := mantExp.1
  let intFrac := splitAtSep (fun c => c = '.') mant
  let ip := intFrac.1
  let fp := (intFrac.2).getD []
  if !(allDigits ip && allDigits fp) then none
  else if ip.length + fp.length = 0 then none
  else
    let mval : ℚ := (digitsVal (ip ++ fp) : ℚ) / (10 : ℚ) ^ fp.length
    let signedM : ℚ := if neg then -mval else mval
    match mantExp.2 with
    | none => some signedM
    | some ex =>
      let exSign : Bool × List Char :=
        match ex with
        | '+' :: rest => (false, rest)
        | '-' :: rest => (true, rest)
        | rest => (false, rest)
      if !(allDigits exSign.2) || exSign.2.length = 0 then none
      else
        let e : ℕ := digitsVal exSign.2
        some (if exSign.1 then signedM / (10 : ℚ) ^ e else signedM * (10 : ℚ) ^ e)

/-- Lower-cased character data of a string. -/
def lowerData (s : String) : List Char := s.data.map Char.toLower

/-- Go `strconv.ParseFloat(s, 64)` modelled on its decimal syntax: the special
values `NaN`, `±Inf`, `±Infinity` (case-insensitive; NaN unsigned), otherwise the
correctly rounded binary64 value of the decimal literal.  `none` models a non-nil
error (syntax error, or `ErrRange` on overflow — Go's callers in this repository
treat any non-nil error as failure). -/
def goParseFloat (s : String) : Option GoFloat :=
  if lowerData s = "nan".data then some .nan
  else if lowerData s = "inf".data || lowerData s = "+inf".data
      || lowerData s = "infinity".data || lowerData s = "+infinity".data then
    some (.inf false)
  else if lowerData s = "-inf".data || lowerData s = "-infinity".data then
    some (.inf true)
  else
    match parseDecQ s with
    | none => none
    | some q =>
      match GoFloat.round64 q with
      | .inf _ => none
      | f => some f

/-! ## Data model: the two PostgreSQL tables -/

/-- A row of the `accounts` table.  `balance` is the exact value held by the
`DECIMAL(20,8)` column: `.num q` for a finite numeric, `.nan` when a Go NaN was
written through the driver (PostgreSQL `numeric` accepts `NaN`). -/
structure Account : Type where
  accountId : ℤ
  balance : GoFloat
deriving DecidableEq, Repr

/-- A row of the `transactions` table.  The UUID is modelled as an opaque `ℕ`. -/
structure TxnRecord : Type where
  txnId : ℕ
  source : ℤ
  dest : ℤ
  amount : String
  status : String
deriving DecidableEq, Repr

/-- The persistent state: the `accounts` and `transactions` tables. -/
structure DB : Type where
  accounts : List Account
  transactions : List TxnRecord
deriving DecidableEq, Repr

/-- `SELECT ... FROM accounts WHERE account_id = $1` (identifier is unique). -/
def findAccount (db : DB) (accountID : ℤ) : Option Account :=
  db.accounts.find? (fun a => a.accountId = accountID)

/-- `UPDATE accounts SET balance = $1 WHERE account_id = $2`. -/
def updateBalance (db : DB) (accountID : ℤ) (v : GoFloat) : DB :=
  { db with
    accounts := db.accounts.map
      (fun a => if a.accountId = accountID then { a with balance := v } else a) }

/-- `UPDATE transactions SET status = $1 WHERE transaction_id = $2` (updates zero
rows, without error, when the identifier is absent). -/
def updateTxnStatus (db : DB) (txnID : ℕ) (status : String) : DB :=
  { db with
    transactions := db.transactions.map
      (fun t => if t.txnId = txnID then { t with status := status } else t) }

/-- Balance of the account row with the given identifier, if present. -/
def balanceOf (db : DB) (accountID : ℤ) : Option GoFloat :=
  (findAccount db accountID).map Account.balance

/-- Status of the transaction record with the given identifier, if present. -/
def statusOf (db : DB) (txnID : ℕ) : Option String :=
  ((db.transactions.find? (fun t => t.txnId = txnID)).map TxnRecord.status)

/-- Finite part of a stored balance (NaN/Inf contribute 0), for summing. -/
def qOf : GoFloat → ℚ
  | .num q => q
  | _ => 0

/-- Sum of all stored account balances. -/
def sumBalances (db : DB) : ℚ := (db.accounts.map (fun a => qOf a.balance)).sum

/-- Events a repository call performs against the store, in order.  `lock` is
the row-hold acquisition of `getByAccountIDWithLock` (`SELECT ... FOR UPDATE`),
recorded only when the row exists and the hold is actually taken. -/
inductive Ev : Type where
  | beginTx : Ev
  | lock (accountId : ℤ) : Ev
  | createRecord (txnId : ℕ) (status : String) : Ev
  | writeBalance (accountId : ℤ) (newBal : GoFloat) : Ev
  | setStatus (txnId : ℕ) (status : String) : Ev
  | commit : Ev
  | rollback : Ev
deriving DecidableEq, Repr

/-- The lock-acquisition subsequence of a trace. -/
def locksOf (tr : List Ev) : List ℤ :=
  tr.filterMap (fun e => match e with | .lock i => some i | _ => none)

/-! ## `transactionRepository` (transaction_repository.go) -/

/-- Reading a stored balance back through `ParseFloat`: the `DECIMAL` column's
text is re-parsed into a float64, i.e. a stored finite rational is re-rounded to
binary64 (`none` models the `ErrRange` error on a stored magnitude at or beyond
`2^1024`, which no `DECIMAL(20,8)` value reaches). -/
def readBalanceFloat : GoFloat → Option GoFloat
  | .num q =>
    match GoFloat.round64 q with
    | .inf _ => none
    | f => some f
  | b => some b

/-- The lock block of `Transfer` (transaction_repository.go:116-147): acquire
the exclusive row holds, lower account identifier first, returning the two rows
read under hold (source first) and the lock events performed. -/
def lockPhase (db : DB) (sourceAccountID destinationAccountID : ℤ) :
    Except String (Account × Account) × List Ev :=
  if sourceAccountID < destinationAccountID then
    match findAccount db sourceAccountID with
    | none => (.error "failed to get source account", [])
    | some sourceAccount =>
      match findAccount db destinationAccountID with
      | none => (.error "failed to get destination account", [.lock sourceAccountID])
      | some destinationAccount =>
        (.ok (sourceAccount, destinationAccount),
         [.lock sourceAccountID, .lock destinationAccountID])
  else
    match findAccount db destinationAccountID with
    | none => (.error "failed to get destination account", [])
    | some destinationAccount =>
      match findAccount db sourceAccountID with
      | none => (.error "failed to get source account", [.lock destinationAccountID])
      | some sourceAccount =>
        (.ok (sourceAccount, destinationAccount),
         [.lock destinationAccountID, .lock sourceAccountID])

/-- The body of `Transfer` after both rows are held
(transaction_repository.go:149-196): parse the amount and the two balances as
float64, check sufficiency, compute the new balances with float64 arithmetic,
write them, mark the record completed, commit.  Returns the resulting store
state (the caller's `db` on rollback) and the events performed after the locks. -/
def transferBody (db : DB) (sourceAccountID destinationAccountID : ℤ)
    (amount : String) (transactionId : ℕ)
    (sourceAccount destinationAccount : Account) : Except String DB × List Ev :=
  match goParseFloat amount with
  | none => (.error "failed to parse transaction amount", [.rollback])
  | some txnAmount =>
    match readBalanceFloat sourceAccount.balance with
    | none => (.error "failed to parse source account balance", [.rollback])
    | some sourceBalance =>
      if GoFloat.flt sourceBalance txnAmount then
        (.error "insufficient balance", [.rollback])
      else
        let newSourceBalance := GoFloat.fsub sourceBalance txnAmount
        match readBalanceFloat destinationAccount.balance with
        | none => (.error "failed to parse destination account balance", [.rollback])
        | some destinationBalance =>
          let newDestinationBalance := GoFloat.fadd destinationBalance txnAmount
          let db1 := updateBalance db sourceAccountID newSourceBalance
          let db2 := updateBalance db1 destinationAccountID newDestinationBalance
          let db3 := updateTxnStatus db2 transactionId "completed"
          (.ok db3,
           [.writeBalance sourceAccountID newSourceBalance,
            .writeBalance destinationAccountID newDestinationBalance,
            .setStatus transactionId "completed",
            .commit])

/-- `transactionRepository.Transfer` (transaction_repository.go:93-197): one
atomic unit of work that locks both rows in canonical order, validates funds,
applies the float64 balance delta and marks the record completed.  On any error
the deferred rollback leaves the store untouched; the returned `DB` is the
post-call committed state. -/
def Transfer (db : DB) (sourceAccountID destinationAccountID : ℤ)
    (amount : String) (transactionId : ℕ) : Except String DB × List Ev :=
  match lockPhase db sourceAccountID destinationAccountID with
  | (.error e, evs) => (.error e, .beginTx :: evs ++ [.rollback])
  | (.ok (sourceAccount, destinationAccount), evs) =>
    let r := transferBody db sourceAccountID destinationAccountID amount
      transactionId sourceAccount destinationAccount
    (r.1, .beginTx :: evs ++ r.2)

/-- `transactionRepository.Create` (transaction_repository.go:32-45): INSERT of
a transaction record; the UNIQUE constraint on `transaction_id` rejects a
duplicate identifier. -/
def createTxnRecord (db : DB) (t : TxnRecord) : Except String DB :=
  if db.transactions.any (fun r => r.txnId = t.txnId) then
    .error "duplicate transaction id"
  else
    .ok { db with transactions := db.transactions ++ [t] }

/-! ## `transactionService` (src/unnamed/part_001) -/

/-- A transfer request as decoded from the API (`models.CreateTransactionRequest`). -/
structure CreateTransactionRequest : Type where
  sourceAccountID : ℤ
  destinationAccountID : ℤ
  amount : String
deriving DecidableEq, Repr

/-- `transactionService.validateTransactionRequest` (part_001:58-85): positive
identifiers, distinct accounts, non-empty amount that `ParseFloat` accepts with
`amount <= 0` false. -/
def validateTransactionRequest (req : CreateTransactionRequest) : Except String Unit :=
  if req.sourceAccountID ≤ 0 then .error "invalid source account ID"
  else if req.destinationAccountID ≤ 0 then .error "invalid destination account ID"
  else if req.sourceAccountID = req.destinationAccountID then
    .error "source and destination accounts cannot be the same"
  else if req.amount = "" then .error "amount cannot be empty"
  else
    match goParseFloat req.amount with
    | none => .error "invalid amount format"
    | some amount =>
      if GoFloat.fle amount (.num 0) then .error "amount must be greater than zero"
      else .ok ()

/-- `transactionService.ProcessTransaction` (part_001:33-56): validate, insert a
`pending` transaction record (its own store call, committed independently of the
transfer's unit of work), then run the repository `Transfer`.  The fresh
`uuid.New()` is supplied as `transactionID`.  Returns the call's result, the
resulting store state and the events performed. -/
def ProcessTransaction (db : DB) (req : CreateTransactionRequest)
    (transactionID : ℕ) : Except String ℕ × DB × List Ev :=
  match validateTransactionRequest req with
  | .error e => (.error ("invalid transaction request: " ++ e), db, [])
  | .ok () =>
    match createTxnRecord db
        { txnId := transactionID, source := req.sourceAccountID,
          dest := req.destinationAccountID, amount := req.amount,
          status := "pending" } with
    | .error e => (.error ("failed to create transaction: " ++ e), db, [])
    | .ok db1 =>
      let r := Transfer db1 req.sourceAccountID req.destinationAccountID
        req.amount transactionID
      match r.1 with
      | .error e =>
        (.error ("failed to transfer funds: " ++ e), db1,
         .createRecord transactionID "pending" :: r.2)
      | .ok db2 =>
        (.ok transactionID, db2, .createRecord transactionID "pending" :: r.2)

/-! ## `accountService` and `accountRepository` -/

/-- `accountService.validateBalance` (repository file, lines 258-269): non-empty
and accepted by `ParseFloat`.  (No sign check.) -/
def validateBalance (balance : String) : Except String Unit :=
  if balance = "" then .error "balance cannot be empty"
  else
    match goParseFloat balance with
    | none => .error "invalid balance format"
    | some _ => .ok ()

/-- Exact numeric value the `DECIMAL(20,8)` column stores for an inserted
balance string (`NaN` is a legal PostgreSQL numeric; other non-decimal strings
would be rejected by the store and are mapped to `none`). -/
def storedNumeric (s : String) : Option GoFloat :=
  if lowerData s = "nan".data then some .nan
  else (parseDecQ s).map GoFloat.num

/-- `accountRepository.Create` (account_repository.go:29-73): existence check
under an exclusive hold, then INSERT of the new row. -/
def repoCreateAccount (db : DB) (accountID : ℤ) (balance : String) :
    Except String DB :=
  if db.accounts.any (fun a => a.accountId = accountID) then
    .error ("account with ID " ++ toString accountID ++ " already exists")
  else
    match storedNumeric balance with
    | none => .error "failed to create account"
    | some v => .ok { db with accounts := db.accounts ++ [⟨accountID, v⟩] }

/-- `accountService.CreateAccount` (repository file, lines 227-247): positive
identifier, `validateBalance`, then the repository insert, each error wrapped
with the service's message prefix. -/
def CreateAccount (db : DB) (accountID : ℤ) (initialBalance : String) :
    Except String DB :=
  if accountID ≤ 0 then .error ("invalid account ID: " ++ toString accountID)
  else
    match validateBalance initialBalance with
    | .error e => .error ("invalid initial balance: " ++ e)
    | .ok () =>
      match repoCreateAccount db accountID initialBalance with
      | .error e => .error ("failed to create account: " ++ e)
      | .ok db1 => .ok db1

/-! ## `AccountHandler` (account_handler.go) -/

/-- `isDuplicateAccountError` (account_handler.go:54-61) on the error's message
characters (`none` is a nil error).  Go evaluates
`len(errMsg) > 0 && errMsg[:25] == "account with ID"` left to right: an empty
message short-circuits to `false`; a non-empty message shorter than 25
characters makes `errMsg[:25]` slice out of range, a run-time panic, modelled as
`.error ()`. -/
def isDuplicateAccountError (errMsg : Option (List Char)) : Except Unit Bool :=
  match errMsg with
  | none => .ok false
  | some msg =>
    if msg.length > 0 then
      if msg.length < 25 then .error ()
      else .ok (decide (msg.take 25 = "account with ID".data))
    else .ok false

/-- Outcome of the `CreateAccount` HTTP handler: a JSON error response with a
status code and error code, a `201 Created`, or a run-time panic. -/
inductive HandlerResp : Type where
  | errResp (status : ℕ) (errCode : String) : HandlerResp
  | created : HandlerResp
  | panicked : HandlerResp
deriving DecidableEq, Repr

/-- `AccountHandler.CreateAccount` (account_handler.go:24-52) after a
successfully decoded request body: handler-level guards, the service call, and
the duplicate-error dispatch to `ACCOUNT_ALREADY_EXISTS` / HTTP 409. -/
def handlerCreateAccount (db : DB) (accountID : ℤ) (initialBalance : String) :
    HandlerResp × DB :=
  if accountID ≤ 0 then (.errResp 400 "INVALID_ACCOUNT_ID", db)
  else if initialBalance = "" then (.errResp 400 "MISSING_BALANCE", db)
  else
    match CreateAccount db accountID initialBalance with
    | .ok db1 => (.created, db1)
    | .error msg =>
      match isDuplicateAccountError (some msg.data) with
      | .error () => (.panicked, db)
      | .ok true => (.errResp 409 "ACCOUNT_ALREADY_EXISTS", db)
      | .ok false => (.errResp 400 "CREATE_ACCOUNT_FAILED", db)

/-! ## Helper lemmas -/

theorem locksOf_append (l1 l2 : List Ev) :
    locksOf (l1 ++ l2) = locksOf l1 ++ locksOf l2 := by
  unfold locksOf
  exact List.filterMap_append l1 l2 _

theorem locksOf_transferBody (db : DB) (s d : ℤ) (a : String) (tid : ℕ)
    (sa da : Account) : locksOf (transferBody db s d a tid sa da).2 = [] := by
  unfold transferBody
  repeat' split
  all_goals simp [locksOf]

theorem locksOf_Transfer (db : DB) (s d : ℤ) (a : String) (tid : ℕ) :
    locksOf (Transfer db s d a tid).2 = locksOf (lockPhase db s d).2 := by
  unfold Transfer
  rcases h : lockPhase db s d with ⟨res, evs⟩
  rcases res with e | ⟨sa, da⟩
  · simp [locksOf, locksOf_append, h]
  · have hb := locksOf_transferBody db s d a tid sa da
    simp [locksOf, locksOf_append, h, hb]
    simpa [locksOf] using hb

theorem lockPhase_locks (db : DB) (s d : ℤ) (h : s ≠ d) :
    locksOf (lockPhase db s d).2 = locksOf (lockPhase db d s).2 ∧
    locksOf (lockPhase db s d).2 <+: [min s d, max s d] ∧
    ((findAccount db s).isSome → (findAccount db d).isSome →
      locksOf (lockPhase db s d).2 = [min s d, max s d]) := by
  rcases lt_trichotomy s d with hlt | heq | hgt
  · have h1 : ¬ d < s := by omega
    have hmin : min s d = s := by omega
    have hmax : max s d = d := by omega
    unfold lockPhase
    rcases hs : findAccount db s with _ | sa <;>
      rcases hd : findAccount db d with _ | da <;>
        simp [hlt, h1, hs, hd, locksOf, hmin, hmax, List.prefix_cons_inj]
  · exact absurd heq h
  · have h1 : ¬ s < d := by omega
    have hmin : min s d = d := by omega
    have hmax : max s d = s := by omega
    unfold lockPhase
    rcases hs : findAccount db s with _ | sa <;>
      rcases hd : findAccount db d with _ | da <;>
        simp [hgt, h1, hs, hd, locksOf, hmin, hmax, List.prefix_cons_inj]

/-- **C3.** For every pair of distinct account identifiers, `Transfer` acquires
the exclusive row holds in ascending identifier order — the hold on the
numerically smaller identifier first, then the larger — and the acquisition
sequence is the same whichever argument is source and whichever is destination:
it is a pure function of the unordered pair.  When both rows exist the sequence
is exactly `[min, max]`; when a lookup fails it is a prefix of that. -/
theorem transfer_lock_order (db : DB) (s d : ℤ) (a a' : String) (tid tid' : ℕ)
    (h : s ≠ d) :
    locksOf (Transfer db s d a tid).2 = locksOf (Transfer db d s a' tid').2 ∧
    locksOf (Transfer db s d a tid).2 <+: [min s d, max s d] ∧
    ((findAccount db s).isSome → (findAccount db d).isSome →
      locksOf (Transfer db s d a tid).2 = [min s d, max s d]) := by
  have hp := lockPhase_locks db s d h
  rw [locksOf_Transfer db s d a tid, locksOf_Transfer db d s a' tid']
  exact ⟨by rw [hp.1], hp.2.1, hp.2.2⟩

/-- Witness for C3 at a concrete store: accounts 1 and 2 both exist, a transfer
from 2 to 1 locks account 1 first, and the sequence matches the opposite
direction's. -/
theorem transfer_lock_order_witness :
    (2 : ℤ) ≠ 1 ∧
    (locksOf (Transfer ⟨[⟨1, .num 300⟩, ⟨2, .num 300⟩], []⟩ 2 1 "10.00" 21).2 =
      locksOf (Transfer ⟨[⟨1, .num 300⟩, ⟨2, .num 300⟩], []⟩ 1 2 "10.00" 22).2 ∧
    locksOf (Transfer ⟨[⟨1, .num 300⟩, ⟨2, .num 300⟩], []⟩ 2 1 "10.00" 21).2 <+:
      [min (2 : ℤ) 1, max (2 : ℤ) 1] ∧
    ((findAccount ⟨[⟨1, .num 300⟩, ⟨2, .num 300⟩], []⟩ 2).isSome →
     (findAccount ⟨[⟨1, .num 300⟩, ⟨2, .num 300⟩], []⟩ 1).isSome →
      locksOf (Transfer ⟨[⟨1, .num 300⟩, ⟨2, .num 300⟩], []⟩ 2 1 "10.00" 21).2 =
        [min (2 : ℤ) 1, max (2 : ℤ) 1])) :=
  ⟨by decide, transfer_lock_order _ 2 1 "10.00" "10.00" 21 22 (by decide)⟩

theorem lockPhase_events (db : DB) (s d : ℤ) :
    ∀ e ∈ (lockPhase db s d).2, ∃ i, e = Ev.lock i := by
  unfold lockPhase
  repeat' split
  all_goals intro e he
  all_goals simp at he
  all_goals first
    | (rcases he with rfl | rfl; exacts [⟨_, rfl⟩, ⟨_, rfl⟩])
    | (subst he; exact ⟨_, rfl⟩)

/-- **C4 (counterexample).** The insufficient-funds guard compares float64
values, not exact decimals: with the source balance `1` and the amount
`1.00000000000000001`, the exact decimal balance is strictly below the exact
decimal amount, yet both parse to the float64 value `1.0`, the guard does not
fire, and the transfer commits, writing both balances — refuting the claim that
every transfer whose held balance is below the amount fails with
InsufficientFunds and writes nothing. -/
theorem insufficient_guard_counterexample :
    parseDecQ "1" = some 1 ∧
    parseDecQ "1.00000000000000001" =
      some ((100000000000000001 : ℚ) / 100000000000000000) ∧
    (1 : ℚ) < (100000000000000001 : ℚ) / 100000000000000000 ∧
    goParseFloat "1.00000000000000001" = some (.num 1) ∧
    (Transfer ⟨[⟨1, .num 1⟩, ⟨2, .num 0⟩], []⟩ 1 2 "1.00000000000000001" 5).1 =
      .ok ⟨[⟨1, .num 0⟩, ⟨2, .num 1⟩], []⟩ := by
  refine ⟨by decide, by decide, by decide, by decide, by decide⟩

/-- **C4 (amended).** For every transfer in which the float64 value parsed from
the source's balance read under hold is strictly less than the float64 value
parsed from the amount — the comparison the code actually performs — the
operation fails with the insufficient-balance error and performs no write: the
unit of work contains no balance write and no status update.  (On decimal inputs
that float64 cannot separate, such as the counterexample's, the exact-decimal
comparison may disagree with this guard.) -/
theorem insufficient_guard_no_mutation (db : DB) (s d : ℤ) (a : String)
    (tid : ℕ) (sa da : Account) (evs : List Ev) (aF bF : GoFloat)
    (hlock : lockPhase db s d = (.ok (sa, da), evs))
    (hamt : goParseFloat a = some aF)
    (hbal : readBalanceFloat sa.balance = some bF)
    (hlt : GoFloat.flt bF aF = true) :
    (Transfer db s d a tid).1 = .error "insufficient balance" ∧
    (∀ i v, Ev.writeBalance i v ∉ (Transfer db s d a tid).2) ∧
    (∀ t st, Ev.setStatus t st ∉ (Transfer db s d a tid).2) := by
  have hbody : transferBody db s d a tid sa da = (.error "insufficient balance", [.rollback]) := by
    unfold transferBody
    rw [hamt, hbal]
    simp [hlt]
  have hev := lockPhase_events db s d
  rw [hlock] at hev
  have htr : Transfer db s d a tid =
      (.error "insufficient balance", .beginTx :: evs ++ [.rollback]) := by
    unfold Transfer
    rw [hlock]
    simp only [hbody]
  refine ⟨by rw [htr], ?_, ?_⟩
  · intro i v hmem
    rw [htr] at hmem
    simp at hmem
    rcases hev _ hmem with ⟨j, hj⟩
    cases hj
  · intro t st hmem
    rw [htr] at hmem
    simp at hmem
    rcases hev _ hmem with ⟨j, hj⟩
    cases hj

/-- Witness for the amended C4: the spec's own scenario.  Accounts `A = 100.00`
and `B = 100.00`; a transfer of `200.00` from A to B fails with the
insufficient-balance error and performs no write. -/
theorem insufficient_guard_no_mutation_witness :
    lockPhase ⟨[⟨1, .num 100⟩, ⟨2, .num 100⟩], []⟩ 1 2 =
      (.ok (⟨1, .num 100⟩, ⟨2, .num 100⟩), [.lock 1, .lock 2]) ∧
    goParseFloat "200.00" = some (.num 200) ∧
    readBalanceFloat (GoFloat.num 100) = some (.num 100) ∧
    GoFloat.flt (.num 100) (.num 200) = true ∧
    ((Transfer ⟨[⟨1, .num 100⟩, ⟨2, .num 100⟩], []⟩ 1 2 "200.00" 9).1 =
        .error "insufficient balance" ∧
      (∀ i v, Ev.writeBalance i v ∉
        (Transfer ⟨[⟨1, .num 100⟩, ⟨2, .num 100⟩], []⟩ 1 2 "200.00" 9).2) ∧
      (∀ t st, Ev.setStatus t st ∉
        (Transfer ⟨[⟨1, .num 100⟩, ⟨2, .num 100⟩], []⟩ 1 2 "200.00" 9).2)) :=
  ⟨by decide, by decide, by decide, by decide,
   insufficient_guard_no_mutation ⟨[⟨1, .num 100⟩, ⟨2, .num 100⟩], []⟩ 1 2 "200.00" 9
     ⟨1, .num 100⟩ ⟨2, .num 100⟩ [.lock 1, .lock 2] (.num 200) (.num 100)
     (by decide) (by decide) (by decide) (by decide)⟩

/-- **C1.** Conservation of funds fails on the code's float64 arithmetic: with
committed balances `999999999999` and `0` and the amount `0.00001`, the amount
is absorbed by rounding on the subtraction side (the new source balance equals
the old one) but credited on the addition side, so the committed transfer
increases the sum of the two written balances over the sum of the two read
balances — value is created. -/
theorem conservation_violated :
    (Transfer ⟨[⟨1, .num 999999999999⟩, ⟨2, .num 0⟩], []⟩ 1 2 "0.00001" 11).1 =
      .ok ⟨[⟨1, .num 999999999999⟩,
            ⟨2, .num ((5902958103587057 : ℚ) / 590295810358705651712)⟩], []⟩ ∧
    sumBalances ⟨[⟨1, .num 999999999999⟩,
            ⟨2, .num ((5902958103587057 : ℚ) / 590295810358705651712)⟩], []⟩ ≠
      sumBalances ⟨[⟨1, .num 999999999999⟩, ⟨2, .num 0⟩], []⟩ := by
  refine ⟨by decide, by decide⟩

/-- **C2.** The balance arithmetic is binary floating point, not exact decimal:
with the stored source balance `0.30` and the amount `0.10`, the committed new
source balance is the float64 value `7205759403792793 / 2^55`
(`0.19999999999999998…`), which differs from the exact decimal result
`0.30 - 0.10 = 0.20`, and the new destination balance `3602879701896397 / 2^55`
differs from the exact `0 + 0.10 = 0.10`. -/
theorem float_arithmetic_not_exact :
    (Transfer ⟨[⟨1, .num (3 / 10)⟩, ⟨2, .num 0⟩], []⟩ 1 2 "0.10" 12).1 =
      .ok ⟨[⟨1, .num ((7205759403792793 : ℚ) / 36028797018963968)⟩,
            ⟨2, .num ((3602879701896397 : ℚ) / 36028797018963968)⟩], []⟩ ∧
    parseDecQ "0.10" = some (1 / 10) ∧
    (7205759403792793 : ℚ) / 36028797018963968 ≠ 3 / 10 - 1 / 10 ∧
    (3602879701896397 : ℚ) / 36028797018963968 ≠ 0 + 1 / 10 := by
  refine ⟨by decide, by decide, by decide, by decide⟩

/-- **C5.** `Transfer` never consults the transaction record's status, so
running the completion step a second time for the same transaction identifier
applies the balance delta again: after a completed `100.00` transfer for
identifier 9 (balances `400`/`600`), repeating it for the same identifier 9
commits balances `300`/`700`. -/
theorem double_completion_double_applies :
    (Transfer ⟨[⟨1, .num 500⟩, ⟨2, .num 500⟩],
               [⟨9, 1, 2, "100.00", "pending"⟩]⟩ 1 2 "100.00" 9).1 =
      .ok ⟨[⟨1, .num 400⟩, ⟨2, .num 600⟩],
           [⟨9, 1, 2, "100.00", "completed"⟩]⟩ ∧
    (Transfer ⟨[⟨1, .num 400⟩, ⟨2, .num 600⟩],
               [⟨9, 1, 2, "100.00", "completed"⟩]⟩ 1 2 "100.00" 9).1 =
      .ok ⟨[⟨1, .num 300⟩, ⟨2, .num 700⟩],
           [⟨9, 1, 2, "100.00", "completed"⟩]⟩ ∧
    ([⟨1, .num 300⟩, ⟨2, .num 700⟩] : List Account) ≠
      [⟨1, .num 400⟩, ⟨2, .num 600⟩] := by
  refine ⟨by decide, by decide, by decide⟩

/-- **C7.** Input validation does not reject every amount that fails to parse as
an exact decimal strictly greater than zero: `"NaN"` is accepted by `ParseFloat`
and the guard `amount <= 0` is false for NaN, so `ProcessTransaction` passes
validation and interacts with the store — it creates a transaction record for
the NaN amount (and here even completes the transfer) — instead of failing with
an invalid-input error before any store interaction. -/
theorem validation_gap_reaches_store :
    validateTransactionRequest ⟨1, 2, "NaN"⟩ = .ok () ∧
    parseDecQ "NaN" = none ∧
    (ProcessTransaction ⟨[⟨1, .num 500⟩, ⟨2, .num 500⟩], []⟩
        ⟨1, 2, "NaN"⟩ 3).2.1.transactions = [⟨3, 1, 2, "NaN", "completed"⟩] := by
  refine ⟨by decide, by decide, by decide⟩

/-- **C10.** There is an amount string that is not a decimal number strictly
greater than zero — `"NaN"` — that `validateTransactionRequest` accepts
(`ParseFloat` parses it to the non-finite NaN and `NaN <= 0` is false), after
which `ProcessTransaction` creates a pending transaction record as its first
store action and attempts the transfer with the non-finite amount. -/
theorem nan_amount_accepted :
    parseDecQ "NaN" = none ∧
    goParseFloat "NaN" = some .nan ∧
    validateTransactionRequest ⟨3, 4, "NaN"⟩ = .ok () ∧
    (ProcessTransaction ⟨[⟨3, .num 250⟩, ⟨4, .num 250⟩], []⟩
        ⟨3, 4, "NaN"⟩ 8).2.2.head? = some (.createRecord 8 "pending") ∧
    Ev.beginTx ∈ (ProcessTransaction ⟨[⟨3, .num 250⟩, ⟨4, .num 250⟩], []⟩
        ⟨3, 4, "NaN"⟩ 8).2.2 := by
  refine ⟨by decide, by decide, by decide, by decide, by decide⟩

/-- **C8.** `validateBalance` checks only that the initial balance is non-empty
and parses as a float, never its sign: `CreateAccount` with the strictly
negative initial balance `"-50.00"` succeeds and inserts the account row with
balance `-50`, contradicting the claimed InvalidInput rejection and breaking the
balance ≥ 0 invariant at creation. -/
theorem negative_initial_balance_accepted :
    CreateAccount ⟨[], []⟩ 7 "-50.00" = .ok ⟨[⟨7, .num (-50)⟩], []⟩ ∧
    parseDecQ "-50.00" = some (-50) ∧ ((-50 : ℚ) < 0) := by
  refine ⟨by decide, by decide, by decide⟩

theorem take25_ne_dupLit (m : List Char) (h : 25 ≤ m.length) :
    m.take 25 ≠ "account with ID".data := by
  intro he
  have hl := congrArg List.length he
  rw [List.length_take, min_eq_left h] at hl
  exact absurd hl (by decide)

theorem isDup_never_true (m : List Char) :
    isDuplicateAccountError (some m) ≠ .ok true := by
  unfold isDuplicateAccountError
  by_cases h0 : m.length > 0
  · by_cases h25 : m.length < 25
    · simp [h0, h25]
    · have hne := take25_ne_dupLit m (by omega)
      simp [h0, h25, hne]
  · simp [h0]

/-- **C9 (counterexample).** A non-nil error with the empty message is shorter
than 25 characters yet does NOT panic: `len(errMsg) > 0` short-circuits the
conjunction and `isDuplicateAccountError` returns `false` without evaluating
`errMsg[:25]` — refuting the claim that every non-nil error with a message
shorter than 25 characters hits the out-of-range slice. -/
theorem isDuplicate_empty_no_panic :
    ("".data).length < 25 ∧ isDuplicateAccountError (some "".data) = .ok false := by
  refine ⟨by decide, by decide⟩

/-- **C9 (amended).** For every non-nil error: a message of length ≥ 25 yields
`false` (its 25-character prefix can never equal the 15-character literal
`"account with ID"`); a NON-EMPTY message shorter than 25 characters makes
`errMsg[:25]` slice out of range, a run-time panic (the empty message instead
short-circuits to `false`); consequently the CreateAccount handler never
produces the ACCOUNT_ALREADY_EXISTS / HTTP 409 Conflict response. -/
theorem isDuplicate_never_conflict (m : List Char) :
    (25 ≤ m.length → isDuplicateAccountError (some m) = .ok false) ∧
    (0 < m.length → m.length < 25 → isDuplicateAccountError (some m) = .error ()) ∧
    (∀ db accountID initialBalance,
      (handlerCreateAccount db accountID initialBalance).1 ≠
        .errResp 409 "ACCOUNT_ALREADY_EXISTS") := by
  refine ⟨?_, ?_, ?_⟩
  · intro h
    have h0 : m.length > 0 := by omega
    have h25 : ¬ m.length < 25 := by omega
    have hne := take25_ne_dupLit m h
    simp [isDuplicateAccountError, h0, h25, hne]
  · intro h0 h25
    simp [isDuplicateAccountError, h0, h25]
  · intro db accountID initialBalance
    unfold handlerCreateAccount
    repeat' split
    all_goals first
      | (simp; done)
      | (rename_i hdup
         exact absurd hdup (isDup_never_true _))

/-- Witness for the amended C9: the wrapped duplicate-account message is 59
characters and classified `false`; a short non-empty message panics; the handler
answers a duplicate creation with 400 CREATE_ACCOUNT_FAILED, not 409. -/
theorem isDuplicate_never_conflict_witness :
    25 ≤ ("failed to create account: account with ID 1 already exists".data).length ∧
    isDuplicateAccountError
      (some "failed to create account: account with ID 1 already exists".data) = .ok false ∧
    0 < ("short".data).length ∧ ("short".data).length < 25 ∧
    isDuplicateAccountError (some "short".data) = .error () ∧
    (handlerCreateAccount ⟨[⟨1, .num 5⟩], []⟩ 1 "10.00").1 ≠
      .errResp 409 "ACCOUNT_ALREADY_EXISTS" :=
  ⟨by decide,
   (isDuplicate_never_conflict "failed to create account: account with ID 1 already exists".data).1
     (by decide),
   by decide, by decide,
   (isDuplicate_never_conflict "short".data).2.1 (by decide) (by decide),
   (isDuplicate_never_conflict []).2.2 ⟨[⟨1, .num 5⟩], []⟩ 1 "10.00"⟩

theorem transferBody_shape (db : DB) (s d : ℤ) (a : String) (tid : ℕ)
    (sa da : Account) :
    (∃ e, transferBody db s d a tid sa da = (.error e, [.rollback])) ∨
    (∃ v1 v2, transferBody db s d a tid sa da =
      (.ok (updateTxnStatus (updateBalance (updateBalance db s v1) d v2) tid "completed"),
       [.writeBalance s v1, .writeBalance d v2, .setStatus tid "completed", .commit])) := by
  unfold transferBody
  repeat' split
  all_goals first
    | exact Or.inl ⟨_, rfl⟩
    | exact Or.inr ⟨_, _, rfl⟩

theorem lockPhase_ok_shape (db : DB) (s d : ℤ) (sa da : Account) (evs : List Ev)
    (h : lockPhase db s d = (.ok (sa, da), evs)) :
    ∃ l1 l2, evs = [Ev.lock l1, Ev.lock l2] := by
  unfold lockPhase at h
  repeat' split at h
  all_goals first
    | exact ⟨_, _, (congrArg Prod.snd h).symm⟩
    | (have hc := congrArg Prod.fst h; simp at hc)

theorem Transfer_shape (db : DB) (s d : ℤ) (a : String) (tid : ℕ) :
    ((∃ e, (Transfer db s d a tid).1 = .error e) ∧
      (∀ i v, Ev.writeBalance i v ∉ (Transfer db s d a tid).2) ∧
      (∀ t st, Ev.setStatus t st ∉ (Transfer db s d a tid).2)) ∨
    (∃ l1 l2 v1 v2,
      (Transfer db s d a tid).1 =
        .ok (updateTxnStatus (updateBalance (updateBalance db s v1) d v2) tid "completed") ∧
      (Transfer db s d a tid).2 =
        [.beginTx, .lock l1, .lock l2, .writeBalance s v1, .writeBalance d v2,
         .setStatus tid "completed", .commit]) := by
  have hev := lockPhase_events db s d
  rcases hlp : lockPhase db s d with ⟨res, evs⟩
  rw [hlp] at hev
  rcases res with e | ⟨sa, da⟩
  · left
    have htr : Transfer db s d a tid = (.error e, .beginTx :: evs ++ [.rollback]) := by
      unfold Transfer
      rw [hlp]
    refine ⟨⟨e, by rw [htr]⟩, ?_, ?_⟩
    · intro i v hmem
      rw [htr] at hmem
      simp at hmem
      rcases hev _ hmem with ⟨j, hj⟩
      cases hj
    · intro t st hmem
      rw [htr] at hmem
      simp at hmem
      rcases hev _ hmem with ⟨j, hj⟩
      cases hj
  · rcases lockPhase_ok_shape db s d sa da evs hlp with ⟨l1, l2, rfl⟩
    rcases transferBody_shape db s d a tid sa da with ⟨e, hb⟩ | ⟨v1, v2, hb⟩
    · left
      have htr : Transfer db s d a tid =
          (.error e, .beginTx :: [Ev.lock l1, Ev.lock l2] ++ [.rollback]) := by
        unfold Transfer
        rw [hlp]
        simp only [hb]
      refine ⟨⟨e, by rw [htr]⟩, ?_, ?_⟩
      · intro i v hmem
        rw [htr] at hmem
        simp at hmem
      · intro t st hmem
        rw [htr] at hmem
        simp at hmem
    · right
      refine ⟨l1, l2, v1, v2, ?_, ?_⟩
      · unfold Transfer
        rw [hlp]
        simp only [hb]
      · unfold Transfer
        rw [hlp]
        simp only [hb]
        rfl

theorem find?_status_map (l : List TxnRecord) (tid : ℕ) (st : String) :
    ((l.map (fun t => if t.txnId = tid then { t with status := st } else t)).find?
        (fun t => t.txnId = tid)).map TxnRecord.status =
      ((l.find? (fun t => t.txnId = tid)).map TxnRecord.status).map (fun _ => st) := by
  induction l with
  | nil => rfl
  | cons t ts ih =>
    simp only [List.map_cons, List.find?_cons]
    by_cases h : t.txnId = tid
    · rw [if_pos h]
      simp [h]
    · rw [if_neg h]
      have hp : (decide (t.txnId = tid)) = false := by simp [h]
      simp only [hp]
      exact ih

theorem statusOf_updateTxnStatus (db : DB) (tid : ℕ) (st : String) :
    statusOf (updateTxnStatus db tid st) tid = (statusOf db tid).map (fun _ => st) := by
  unfold statusOf updateTxnStatus
  exact find?_status_map db.transactions tid st

theorem statusOf_updateBalance (db : DB) (i : ℤ) (v : GoFloat) (t : ℕ) :
    statusOf (updateBalance db i v) t = statusOf db t := rfl

theorem statusOf_append_fresh (db : DB) (rec : TxnRecord)
    (hfresh : db.transactions.any (fun r => r.txnId = rec.txnId) = false) :
    statusOf { db with transactions := db.transactions ++ [rec] } rec.txnId =
      some rec.status := by
  unfold statusOf
  have h1 : db.transactions.find? (fun t => t.txnId = rec.txnId) = none := by
    rw [List.find?_eq_none]
    intro x hx hpx
    have hany : db.transactions.any (fun r => r.txnId = rec.txnId) = true :=
      List.any_eq_true.mpr ⟨x, hx, hpx⟩
    rw [hfresh] at hany
    cases hany
  simp [List.find?_append, h1]

/-- **C6.** For every transfer request that passes input validation (with a
fresh transaction identifier, as `uuid.New()` supplies): a `pending` transaction
record is inserted as the very first store action, before any balance mutation
is attempted; every status update performed sets that record to `completed`, and
on success it happens inside the same atomic unit as the two balance writes
(between its begin and its commit, after both writes); and in every execution in
which the transfer cannot complete after the record was created, the record's
status remains `pending` — it is never set to `completed` or `failed` — and no
balance is written. -/
theorem process_record_lifecycle (db : DB) (req : CreateTransactionRequest)
    (tid : ℕ)
    (hv : validateTransactionRequest req = .ok ())
    (hfresh : db.transactions.any (fun r => r.txnId = tid) = false) :
    (ProcessTransaction db req tid).2.2.head? = some (.createRecord tid "pending") ∧
    (∀ t st, Ev.setStatus t st ∈ (ProcessTransaction db req tid).2.2 →
      t = tid ∧ st = "completed") ∧
    (∀ n, (ProcessTransaction db req tid).1 = .ok n →
      statusOf (ProcessTransaction db req tid).2.1 tid = some "completed" ∧
      ∃ l1 l2 v1 v2, (ProcessTransaction db req tid).2.2 =
        [.createRecord tid "pending", .beginTx, .lock l1, .lock l2,
         .writeBalance req.sourceAccountID v1,
         .writeBalance req.destinationAccountID v2,
         .setStatus tid "completed", .commit]) ∧
    (∀ e, (ProcessTransaction db req tid).1 = .error e →
      statusOf (ProcessTransaction db req tid).2.1 tid = some "pending" ∧
      ∀ i v, Ev.writeBalance i v ∉ (ProcessTransaction db req tid).2.2) := by
  have hcreate : createTxnRecord db
      ⟨tid, req.sourceAccountID, req.destinationAccountID, req.amount, "pending"⟩ =
      .ok { db with transactions := db.transactions ++
        [⟨tid, req.sourceAccountID, req.destinationAccountID, req.amount, "pending"⟩] } := by
    simp [createTxnRecord, hfresh]
  have hst : statusOf { db with transactions := db.transactions ++
      [⟨tid, req.sourceAccountID, req.destinationAccountID, req.amount, "pending"⟩] } tid =
      some "pending" :=
    statusOf_append_fresh db
      ⟨tid, req.sourceAccountID, req.destinationAccountID, req.amount, "pending"⟩ hfresh
  rcases Transfer_shape
      { db with transactions := db.transactions ++
        [⟨tid, req.sourceAccountID, req.destinationAccountID, req.amount, "pending"⟩] }
      req.sourceAccountID req.destinationAccountID req.amount tid with
    ⟨⟨e, he⟩, hw, hs⟩ | ⟨l1, l2, v1, v2, hok, htr⟩
  · have hP : ProcessTransaction db req tid =
        (.error ("failed to transfer funds: " ++ e),
         { db with transactions := db.transactions ++
           [⟨tid, req.sourceAccountID, req.destinationAccountID, req.amount, "pending"⟩] },
         .createRecord tid "pending" ::
           (Transfer { db with transactions := db.transactions ++
             [⟨tid, req.sourceAccountID, req.destinationAccountID, req.amount, "pending"⟩] }
             req.sourceAccountID req.destinationAccountID req.amount tid).2) := by
      unfold ProcessTransaction
      rw [hv]
      simp only [hcreate]
      rw [he]
    rw [hP]
    refine ⟨rfl, ?_, ?_, ?_⟩
    · intro t st hmem
      simp at hmem
      exact absurd hmem (hs t st)
    · intro n hn
      exact Except.noConfusion hn
    · intro e' he'
      refine ⟨hst, ?_⟩
      intro i v hmem
      simp at hmem
      exact absurd hmem (hw i v)
  · have hP : ProcessTransaction db req tid =
        (.ok tid,
         updateTxnStatus
           (updateBalance
             (updateBalance
               { db with transactions := db.transactions ++
                 [⟨tid, req.sourceAccountID, req.destinationAccountID, req.amount, "pending"⟩] }
               req.sourceAccountID v1)
             req.destinationAccountID v2) tid "completed",
         .createRecord tid "pending" ::
           (Transfer { db with transactions := db.transactions ++
             [⟨tid, req.sourceAccountID, req.destinationAccountID, req.amount, "pending"⟩] }
             req.sourceAccountID req.destinationAccountID req.amount tid).2) := by
      unfold ProcessTransaction
      rw [hv]
      simp only [hcreate]
      rw [hok]
    rw [hP]
    refine ⟨rfl, ?_, ?_, ?_⟩
    · intro t st hmem
      rw [htr] at hmem
      simp at hmem
      exact hmem
    · intro n hn
      refine ⟨?_, l1, l2, v1, v2, ?_⟩
      · rw [statusOf_updateTxnStatus, statusOf_updateBalance, statusOf_updateBalance, hst]
        rfl
      · rw [htr]
    · intro e' he'
      exact Except.noConfusion he'

/-- Witness for C6: with accounts `1 ↦ 500` and `2 ↦ 500`, a validated
`100.00` transfer under fresh identifier 7 shows the full lifecycle. -/
theorem process_record_lifecycle_witness :
    validateTransactionRequest ⟨1, 2, "100.00"⟩ = .ok () ∧
    (([] : List TxnRecord).any (fun r => r.txnId = 7) = false) ∧
    ((ProcessTransaction ⟨[⟨1, .num 500⟩, ⟨2, .num 500⟩], []⟩ ⟨1, 2, "100.00"⟩ 7).2.2.head? =
        some (.createRecord 7 "pending") ∧
      (∀ t st, Ev.setStatus t st ∈
          (ProcessTransaction ⟨[⟨1, .num 500⟩, ⟨2, .num 500⟩], []⟩ ⟨1, 2, "100.00"⟩ 7).2.2 →
        t = 7 ∧ st = "completed") ∧
      (∀ n, (ProcessTransaction ⟨[⟨1, .num 500⟩, ⟨2, .num 500⟩], []⟩ ⟨1, 2, "100.00"⟩ 7).1 =
          .ok n →
        statusOf (ProcessTransaction ⟨[⟨1, .num 500⟩, ⟨2, .num 500⟩], []⟩
            ⟨1, 2, "100.00"⟩ 7).2.1 7 = some "completed" ∧
        ∃ l1 l2 v1 v2,
          (ProcessTransaction ⟨[⟨1, .num 500⟩, ⟨2, .num 500⟩], []⟩ ⟨1, 2, "100.00"⟩ 7).2.2 =
            [.createRecord 7 "pending", .beginTx, .lock l1, .lock l2,
             .writeBalance (CreateTransactionRequest.mk 1 2 "100.00").sourceAccountID v1,
             .writeBalance (CreateTransactionRequest.mk 1 2 "100.00").destinationAccountID v2,
             .setStatus 7 "completed", .commit]) ∧
      (∀ e, (ProcessTransaction ⟨[⟨1, .num 500⟩, ⟨2, .num 500⟩], []⟩ ⟨1, 2, "100.00"⟩ 7).1 =
          .error e →
        statusOf (ProcessTransaction ⟨[⟨1, .num 500⟩, ⟨2, .num 500⟩], []⟩
            ⟨1, 2, "100.00"⟩ 7).2.1 7 = some "pending" ∧
        ∀ i v, Ev.writeBalance i v ∉
          (ProcessTransaction ⟨[⟨1, .num 500⟩, ⟨2, .num 500⟩], []⟩ ⟨1, 2, "100.00"⟩ 7).2.2)) :=
  ⟨by decide, by decide,
   process_record_lifecycle ⟨[⟨1, .num 500⟩, ⟨2, .num 500⟩], []⟩ ⟨1, 2, "100.00"⟩ 7
     (by decide) (by decide)⟩
